import Mathlib

/-!
Shallow embedding of the todoservice auth persistence layer:
the domain records (`internal/domain`), the Postgres-backed stores
`UserDB` (`internal/repository/postgres/users.go`) and `RefreshTokenDB`
(`internal/repository/postgres/tokens.go`), and the Redis-backed
`TokenCache` (`internal/repository/redis`).

Modelling conventions:
* UUIDs are natural numbers; `uuid.New()` is modelled by a counter
  generator issuing fresh nonzero identifiers (the library's contract).
* `time.Now()` values are passed in explicitly, one parameter per call
  site, so the two consecutive calls inside `Create` are two parameters.
* A table is a list of rows; each SQL statement is given its Postgres
  semantics over the list, including the unique constraints of the
  schema (`users.id` PK, `users.email` UNIQUE, `refresh_tokens.id` PK;
  `refresh_tokens.refresh_token` is NOT unique).
* A possible driver-level failure (connectivity, cancelled context) is
  an `Option String` parameter: `some cause` makes the underlying
  `Exec`/`QueryRow` call fail with that cause, `none` lets the SQL
  semantics decide.
* Go mutates the caller's record through a pointer; the embedding
  returns the record after the call in the result structure.
-/

/-- Model of `uuid.UUID`. -/
abbrev UUID := Nat

/-- Model of `time.Time` instants (also used for `expires_at`). -/
abbrev Time := Nat

/-- Record `domain.User` (auth-service/internal/domain). -/
structure User where
  ID : UUID
  Name : String
  Email : String
  PasswordHash : String
  CreatedAt : Time
  UpdatedAt : Time
deriving DecidableEq, Repr

/-- Record `domain.RefreshToken` (auth-service/internal/domain). -/
structure RefreshToken where
  ID : UUID
  UserID : UUID
  RefreshToken : String
  ExpiresAt : Time
  CreatedAt : Time
  UpdatedAt : Time
deriving DecidableEq, Repr

/-- Model of `uuid.New()`: a generator issuing fresh identifiers. Each
call returns `counter + 1` (never zero, never repeated) and advances
the counter, reflecting the library's fresh-unique-nonzero contract. -/
structure UuidGen where
  counter : Nat
deriving DecidableEq, Repr

def UuidGen.new (g : UuidGen) : UUID × UuidGen :=
  (g.counter + 1, ⟨g.counter + 1⟩)

/-- Result of scanning a `QueryRow`: either a row, `pgx.ErrNoRows`, or
another driver error with its cause. -/
inductive DBError where
  | noRows
  | other (cause : String)
deriving DecidableEq, Repr

/-- Error taxonomy of the repository layer, classifying the
`fmt.Errorf` results of the Go code: `notFound` for the
"not found" branches (with the wrapped cause when the code wraps it),
`persistence` for the "failed to ..." wrapping branches. -/
inductive RepoError where
  | notFound (msg : String) (cause : Option String)
  | persistence (msg : String) (cause : String)
deriving DecidableEq, Repr

/-- The message of `pgx.ErrNoRows`. -/
def pgxNoRows : String := "no rows in result set"

/-- Model of `row.Scan` after `QueryRow`: a driver fault yields its cause, an
empty result yields `pgx.ErrNoRows`, otherwise the row. -/
def queryRowScan {α : Type} (fault : Option String) (row : Option α) :
    Except DBError α :=
  match fault with
  | some e => .error (.other e)
  | none =>
    match row with
    | some a => .ok a
    | none => .error .noRows

/-- The `users` table. -/
abbrev UsersTable := List User

/-- The `refresh_tokens` table. -/
abbrev TokensTable := List RefreshToken

/-- Query `SELECT ... FROM users WHERE id = $1` (at most one row: `id` is the
primary key). -/
def selectUserWhereId (tbl : UsersTable) (id : UUID) : Option User :=
  tbl.find? (fun r => r.ID == id)

/-- Query `SELECT ... FROM users WHERE email=$1` (at most one row: `email` is
UNIQUE in the schema). -/
def selectUserWhereEmail (tbl : UsersTable) (email : String) : Option User :=
  tbl.find? (fun r => r.Email == email)

/-- Query `SELECT ... FROM refresh_tokens WHERE id = $1`. -/
def selectTokenWhereId (tbl : TokensTable) (id : UUID) : Option RefreshToken :=
  tbl.find? (fun r => r.ID == id)

/-- Query `SELECT ... FROM refresh_tokens WHERE refresh_token=$1`. The column
is not unique, so several rows may match; `QueryRow` surfaces the first
row the engine returns, modelled as the first match in table order. -/
def selectTokenWhereToken (tbl : TokensTable) (s : String) : Option RefreshToken :=
  tbl.find? (fun r => r.RefreshToken == s)

/-- Statement `INSERT INTO users ...`: fails on a driver fault or on violating the
`id` primary key or the `email` UNIQUE constraint; otherwise appends. -/
def execInsertUser (fault : Option String) (tbl : UsersTable) (u : User) :
    Except String UsersTable :=
  match fault with
  | some e => .error e
  | none =>
    if tbl.any (fun r => r.ID == u.ID) then
      .error "duplicate key value violates unique constraint users_pkey"
    else if tbl.any (fun r => r.Email == u.Email) then
      .error "duplicate key value violates unique constraint users_email_key"
    else
      .ok (tbl ++ [u])

/-- Statement `UPDATE users SET name, email, password_hash, updated_at WHERE id`:
fails on a driver fault or when the new email collides with a different
row; otherwise rewrites the matched rows and reports how many matched. -/
def execUpdateUsers (fault : Option String) (tbl : UsersTable)
    (name email hash : String) (updatedAt : Time) (id : UUID) :
    Except String (UsersTable × Nat) :=
  match fault with
  | some e => .error e
  | none =>
    if tbl.any (fun r => r.ID == id) &&
        tbl.any (fun r => r.ID != id && r.Email == email) then
      .error "duplicate key value violates unique constraint users_email_key"
    else
      .ok (tbl.map (fun r =>
          if r.ID == id then
            { r with Name := name, Email := email, PasswordHash := hash,
                     UpdatedAt := updatedAt }
          else r),
        tbl.countP (fun r => r.ID == id))

/-- Statement `DELETE FROM users WHERE id = $1`: fails only on a driver fault;
otherwise removes the matched rows and reports how many matched. -/
def execDeleteUsers (fault : Option String) (tbl : UsersTable) (id : UUID) :
    Except String (UsersTable × Nat) :=
  match fault with
  | some e => .error e
  | none =>
    .ok (tbl.filter (fun r => r.ID != id), tbl.countP (fun r => r.ID == id))

/-- Statement `INSERT INTO refresh_tokens ...`: fails on a driver fault or on
violating the `id` primary key (the token string is not constrained). -/
def execInsertToken (fault : Option String) (tbl : TokensTable)
    (t : RefreshToken) : Except String TokensTable :=
  match fault with
  | some e => .error e
  | none =>
    if tbl.any (fun r => r.ID == t.ID) then
      .error "duplicate key value violates unique constraint refresh_tokens_pkey"
    else
      .ok (tbl ++ [t])

/-- Statement `DELETE FROM refresh_tokens WHERE id = $1`. -/
def execDeleteTokens (fault : Option String) (tbl : TokensTable) (id : UUID) :
    Except String (TokensTable × Nat) :=
  match fault with
  | some e => .error e
  | none =>
    .ok (tbl.filter (fun r => r.ID != id), tbl.countP (fun r => r.ID == id))

/-- Outcome of `UserDB.Create`: the caller's record after the in-place
mutation, the table, the advanced uuid generator, and the error. -/
structure UserCreateRes where
  record : User
  table : UsersTable
  gen : UuidGen
  err : Option RepoError
deriving DecidableEq, Repr

/-- Outcome of `UserDB.Update`: the caller's record after the in-place
mutation, the table, and the error. -/
structure UserUpdateRes where
  record : User
  table : UsersTable
  err : Option RepoError
deriving DecidableEq, Repr

/-- Outcome of `UserDB.Delete`. -/
structure UserDeleteRes where
  table : UsersTable
  err : Option RepoError
deriving DecidableEq, Repr

/-- Outcome of `RefreshTokenDB.Create`. -/
structure TokenCreateRes where
  record : RefreshToken
  table : TokensTable
  gen : UuidGen
  err : Option RepoError
deriving DecidableEq, Repr

/-- Outcome of `RefreshTokenDB.Delete`. -/
structure TokenDeleteRes where
  table : TokensTable
  err : Option RepoError
deriving DecidableEq, Repr

/-- Method `UserDB.Create` (users.go lines 23-37): assigns a fresh uuid and the
two `time.Now()` readings `t1`, `t2` to the caller's record in place,
then inserts; an insert failure is wrapped as
"failed to insert user". -/
def UserDB.Create (g : UuidGen) (t1 t2 : Time) (fault : Option String)
    (tbl : UsersTable) (user : User) : UserCreateRes :=
  let fresh := g.new
  let user := { user with ID := fresh.1, CreatedAt := t1, UpdatedAt := t2 }
  match execInsertUser fault tbl user with
  | .error e => ⟨user, tbl, fresh.2, some (.persistence "failed to insert user" e)⟩
  | .ok tbl' => ⟨user, tbl', fresh.2, none⟩

/-- Method `UserDB.Read` (users.go lines 39-54): `pgx.ErrNoRows` becomes
"user not found" (cause discarded), any other failure becomes
"failed to read user" wrapping the cause. -/
def UserDB.Read (fault : Option String) (tbl : UsersTable) (id : UUID) :
    Except RepoError User :=
  match queryRowScan fault (selectUserWhereId tbl id) with
  | .ok u => .ok u
  | .error .noRows => .error (.notFound "user not found" none)
  | .error (.other e) => .error (.persistence "failed to read user" e)

/-- Method `UserDB.ReadByEmail` (users.go lines 56-71): as `Read`, but the
"user not found" branch wraps the `pgx.ErrNoRows` cause. -/
def UserDB.ReadByEmail (fault : Option String) (tbl : UsersTable)
    (email : String) : Except RepoError User :=
  match queryRowScan fault (selectUserWhereEmail tbl email) with
  | .ok u => .ok u
  | .error .noRows => .error (.notFound "user not found" (some pgxNoRows))
  | .error (.other e) => .error (.persistence "failed to read user" e)

/-- Method `UserDB.Update` (users.go lines 73-88): sets the caller's
`UpdatedAt` to `now` in place, issues the UPDATE, wraps an exec failure
as "failed to update user", and reports "user not found" when zero rows
matched. -/
def UserDB.Update (now : Time) (fault : Option String) (tbl : UsersTable)
    (user : User) : UserUpdateRes :=
  let user := { user with UpdatedAt := now }
  match execUpdateUsers fault tbl user.Name user.Email user.PasswordHash
      user.UpdatedAt user.ID with
  | .error e => ⟨user, tbl, some (.persistence "failed to update user" e)⟩
  | .ok (tbl', n) =>
    if n = 0 then ⟨user, tbl', some (.notFound "user not found" none)⟩
    else ⟨user, tbl', none⟩

/-- Method `UserDB.Delete` (users.go lines 90-103): wraps an exec failure as
"failed to delete user", reports "user not found" when zero rows
matched. -/
def UserDB.Delete (fault : Option String) (tbl : UsersTable) (id : UUID) :
    UserDeleteRes :=
  match execDeleteUsers fault tbl id with
  | .error e => ⟨tbl, some (.persistence "failed to delete user" e)⟩
  | .ok (tbl', n) =>
    if n = 0 then ⟨tbl', some (.notFound "user not found" none)⟩
    else ⟨tbl', none⟩

/-- Method `RefreshTokenDB.Create` (tokens.go lines 24-38). -/
def RefreshTokenDB.Create (g : UuidGen) (t1 t2 : Time) (fault : Option String)
    (tbl : TokensTable) (token : RefreshToken) : TokenCreateRes :=
  let fresh := g.new
  let token := { token with ID := fresh.1, CreatedAt := t1, UpdatedAt := t2 }
  match execInsertToken fault tbl token with
  | .error e =>
    ⟨token, tbl, fresh.2, some (.persistence "failed to insert refresh token" e)⟩
  | .ok tbl' => ⟨token, tbl', fresh.2, none⟩

/-- Method `RefreshTokenDB.Read` (tokens.go lines 40-55): the
"refresh token not found" branch wraps the `pgx.ErrNoRows` cause. -/
def RefreshTokenDB.Read (fault : Option String) (tbl : TokensTable)
    (id : UUID) : Except RepoError RefreshToken :=
  match queryRowScan fault (selectTokenWhereId tbl id) with
  | .ok t => .ok t
  | .error .noRows => .error (.notFound "refresh token not found" (some pgxNoRows))
  | .error (.other e) => .error (.persistence "failed to read refresh token" e)

/-- Method `RefreshTokenDB.ReadByRefreshToken` (tokens.go lines 57-72). -/
def RefreshTokenDB.ReadByRefreshToken (fault : Option String)
    (tbl : TokensTable) (s : String) : Except RepoError RefreshToken :=
  match queryRowScan fault (selectTokenWhereToken tbl s) with
  | .ok t => .ok t
  | .error .noRows => .error (.notFound "refresh token not found" (some pgxNoRows))
  | .error (.other e) => .error (.persistence "failed to read refresh token" e)

/-- Method `RefreshTokenDB.Delete` (tokens.go lines 74-87). -/
def RefreshTokenDB.Delete (fault : Option String) (tbl : TokensTable)
    (id : UUID) : TokenDeleteRes :=
  match execDeleteTokens fault tbl id with
  | .error e => ⟨tbl, some (.persistence "failed to delete refresh token" e)⟩
  | .ok (tbl', n) =>
    if n = 0 then ⟨tbl', some (.notFound "refresh token not found" none)⟩
    else ⟨tbl', none⟩

/-- Model of `uuid.UUID.String()`: the identifier rendered as text. -/
def uuidString (id : UUID) : String := toString id

/-- One entry of the Redis cache: key, value, and the TTL the entry was
set with (a Go `time.Duration`, possibly negative). -/
structure CacheEntry where
  key : String
  value : String
  ttl : Int
deriving DecidableEq, Repr

/-- The cache contents. -/
abbrev CacheState := List CacheEntry

/-- Outcome of a cache command. -/
structure CacheSetRes where
  cache : CacheState
  err : Option String
deriving DecidableEq, Repr

/-- Redis `SET key value EX ttl`: a fault (connectivity) leaves the
cache unchanged and surfaces the cause; otherwise the key is
overwritten with the new value and TTL. -/
def redisSet (fault : Option String) (c : CacheState) (k v : String)
    (ttl : Int) : CacheSetRes :=
  match fault with
  | some e => ⟨c, some e⟩
  | none => ⟨c.filter (fun en => en.key != k) ++ [⟨k, v, ttl⟩], none⟩

/-- Look a key up in the cache. -/
def cacheLookup (c : CacheState) (k : String) : Option (String × Int) :=
  (c.find? (fun en => en.key == k)).map (fun en => (en.value, en.ttl))

/-- Method `TokenCache.Set` (redis token cache): stores the token string under
`token.ID.String()` with TTL `token.ExpiresAt.Sub(time.Now())`, and
returns the cache command's error unchanged. -/
def TokenCache.Set (now : Time) (fault : Option String) (c : CacheState)
    (token : RefreshToken) : CacheSetRes :=
  redisSet fault c (uuidString token.ID) token.RefreshToken
    ((token.ExpiresAt : Int) - (now : Int))

/-! ### Helper lemmas -/

theorem find?_eq_none_of_any_eq_false {α : Type} (p : α → Bool) (l : List α)
    (h : l.any p = false) : l.find? p = none := by
  rw [List.find?_eq_none]
  exact List.any_eq_false.mp h

/-- A successful insert means: no driver fault, no key collision, and
the row was appended. -/
theorem execInsertUser_ok (fault : Option String) (tbl : UsersTable)
    (u : User) (tbl' : UsersTable) (h : execInsertUser fault tbl u = .ok tbl') :
    fault = none ∧ tbl.any (fun r => r.ID == u.ID) = false ∧
    tbl.any (fun r => r.Email == u.Email) = false ∧ tbl' = tbl ++ [u] := by
  cases fault with
  | some e => exact Except.noConfusion h
  | none =>
    simp only [execInsertUser] at h
    split at h
    · exact Except.noConfusion h
    · split at h
      · exact Except.noConfusion h
      · rename_i h1 h2
        injection h with h
        exact ⟨rfl, Bool.eq_false_iff.mpr h1, Bool.eq_false_iff.mpr h2, h.symm⟩

theorem execInsertToken_ok (fault : Option String) (tbl : TokensTable)
    (t : RefreshToken) (tbl' : TokensTable)
    (h : execInsertToken fault tbl t = .ok tbl') :
    fault = none ∧ tbl.any (fun r => r.ID == t.ID) = false ∧
    tbl' = tbl ++ [t] := by
  cases fault with
  | some e => exact Except.noConfusion h
  | none =>
    simp only [execInsertToken] at h
    split at h
    · exact Except.noConfusion h
    · rename_i h1
      injection h with h
      exact ⟨rfl, Bool.eq_false_iff.mpr h1, h.symm⟩

/-- A successful `UserDB.Create` assigned the fresh id and the two clock
readings, and appended exactly that record. -/
theorem userCreate_ok (g : UuidGen) (t1 t2 : Time) (fault : Option String)
    (tbl : UsersTable) (user : User)
    (h : (UserDB.Create g t1 t2 fault tbl user).err = none) :
    (UserDB.Create g t1 t2 fault tbl user).record =
      { user with ID := g.new.1, CreatedAt := t1, UpdatedAt := t2 } ∧
    (UserDB.Create g t1 t2 fault tbl user).table =
      tbl ++ [{ user with ID := g.new.1, CreatedAt := t1, UpdatedAt := t2 }] ∧
    tbl.any (fun r => r.ID == g.new.1) = false ∧
    tbl.any (fun r => r.Email == user.Email) = false := by
  simp only [UserDB.Create] at h ⊢
  cases he : execInsertUser fault tbl
      { user with ID := g.new.1, CreatedAt := t1, UpdatedAt := t2 } with
  | error e => rw [he] at h; exact Option.noConfusion h
  | ok tbl2 =>
    obtain ⟨-, hid, hem, htbl⟩ := execInsertUser_ok _ _ _ _ he
    subst htbl
    exact ⟨rfl, rfl, hid, hem⟩

theorem tokenCreate_ok (g : UuidGen) (t1 t2 : Time)
    (fault : Option String) (tbl : TokensTable) (token : RefreshToken)
    (h : (RefreshTokenDB.Create g t1 t2 fault tbl token).err = none) :
    (RefreshTokenDB.Create g t1 t2 fault tbl token).record =
      { token with ID := g.new.1, CreatedAt := t1, UpdatedAt := t2 } ∧
    (RefreshTokenDB.Create g t1 t2 fault tbl token).table =
      tbl ++ [{ token with ID := g.new.1, CreatedAt := t1, UpdatedAt := t2 }] ∧
    tbl.any (fun r => r.ID == g.new.1) = false := by
  simp only [RefreshTokenDB.Create] at h ⊢
  cases he : execInsertToken fault tbl
      { token with ID := g.new.1, CreatedAt := t1, UpdatedAt := t2 } with
  | error e => rw [he] at h; exact Option.noConfusion h
  | ok tbl2 =>
    obtain ⟨-, hid, htbl⟩ := execInsertToken_ok _ _ _ _ he
    subst htbl
    exact ⟨rfl, rfl, hid⟩

/-- If a predicate holds for an appended element and for nothing in the
prefix, `find?` over the whole list returns that element. -/
theorem find?_appended_row {α : Type} (p : α → Bool) (l : List α) (a : α)
    (hl : l.any p = false) (ha : p a = true) :
    (l ++ [a]).find? p = some a := by
  rw [List.find?_append, find?_eq_none_of_any_eq_false _ _ hl]
  simp [List.find?, ha]

/-! ### Claim theorems -/

/-- Claim C1: for every valid `User` input, `UserDB.Create` followed by
`UserDB.Read` on the ID assigned by `Create` succeeds and returns a
record whose `Name`, `Email`, and `PasswordHash` equal those of the
created user. -/
theorem C1_create_then_read_roundtrip (g : UuidGen) (t1 t2 : Time)
    (fault : Option String) (tbl : UsersTable) (user : User)
    (h : (UserDB.Create g t1 t2 fault tbl user).err = none) :
    UserDB.Read none (UserDB.Create g t1 t2 fault tbl user).table
        (UserDB.Create g t1 t2 fault tbl user).record.ID =
      .ok (UserDB.Create g t1 t2 fault tbl user).record ∧
    (UserDB.Create g t1 t2 fault tbl user).record.Name = user.Name ∧
    (UserDB.Create g t1 t2 fault tbl user).record.Email = user.Email ∧
    (UserDB.Create g t1 t2 fault tbl user).record.PasswordHash =
      user.PasswordHash := by
  obtain ⟨hrec, htab, hid, -⟩ := userCreate_ok g t1 t2 fault tbl user h
  rw [hrec, htab]
  refine ⟨?_, rfl, rfl, rfl⟩
  unfold UserDB.Read selectUserWhereId
  rw [find?_appended_row _ _ _ hid (by simp)]
  rfl

/-- Claim C1 witness: a concrete create-then-read round trip. -/
theorem C1_witness :
    (UserDB.Create ⟨0⟩ 3 3 none [] ⟨0, "Alice", "alice@example.com", "h", 0, 0⟩).err
        = none ∧
    (UserDB.Read none
        (UserDB.Create ⟨0⟩ 3 3 none [] ⟨0, "Alice", "alice@example.com", "h", 0, 0⟩).table
        (UserDB.Create ⟨0⟩ 3 3 none [] ⟨0, "Alice", "alice@example.com", "h", 0, 0⟩).record.ID =
      .ok (UserDB.Create ⟨0⟩ 3 3 none [] ⟨0, "Alice", "alice@example.com", "h", 0, 0⟩).record ∧
    (UserDB.Create ⟨0⟩ 3 3 none [] ⟨0, "Alice", "alice@example.com", "h", 0, 0⟩).record.Name = "Alice" ∧
    (UserDB.Create ⟨0⟩ 3 3 none [] ⟨0, "Alice", "alice@example.com", "h", 0, 0⟩).record.Email = "alice@example.com" ∧
    (UserDB.Create ⟨0⟩ 3 3 none [] ⟨0, "Alice", "alice@example.com", "h", 0, 0⟩).record.PasswordHash = "h") :=
  ⟨by decide,
   C1_create_then_read_roundtrip ⟨0⟩ 3 3 none []
     ⟨0, "Alice", "alice@example.com", "h", 0, 0⟩ (by decide)⟩

/-- Claim C2: for every ID that matches no row, `UserDB.Update`,
`UserDB.Delete`, and `RefreshTokenDB.Delete` return a `NotFound` error
(the zero-rows-matched case), not a `PersistenceError`. -/
theorem C2_missing_id_yields_notFound (now : Time) (tbl : UsersTable)
    (user : User) (id : UUID) (ttbl : TokensTable) (tid : UUID)
    (h1 : tbl.any (fun r => r.ID == user.ID) = false)
    (h2 : tbl.any (fun r => r.ID == id) = false)
    (h3 : ttbl.any (fun r => r.ID == tid) = false) :
    (UserDB.Update now none tbl user).err =
      some (.notFound "user not found" none) ∧
    (UserDB.Delete none tbl id).err =
      some (.notFound "user not found" none) ∧
    (RefreshTokenDB.Delete none ttbl tid).err =
      some (.notFound "refresh token not found" none) := by
  have hc1 : tbl.countP (fun r => r.ID == user.ID) = 0 :=
    List.countP_eq_zero.mpr (List.any_eq_false.mp h1)
  have hc2 : tbl.countP (fun r => r.ID == id) = 0 :=
    List.countP_eq_zero.mpr (List.any_eq_false.mp h2)
  have hc3 : ttbl.countP (fun r => r.ID == tid) = 0 :=
    List.countP_eq_zero.mpr (List.any_eq_false.mp h3)
  refine ⟨?_, ?_, ?_⟩
  · simp [UserDB.Update, execUpdateUsers, h1, hc1]
  · simp [UserDB.Delete, execDeleteUsers, hc2]
  · simp [RefreshTokenDB.Delete, execDeleteTokens, hc3]

/-- Claim C2 witness: updating and deleting on empty tables. -/
theorem C2_witness :
    ((List.any ([] : UsersTable) fun r => r.ID == (5 : UUID)) = false) ∧
    ((List.any ([] : UsersTable) fun r => r.ID == (6 : UUID)) = false) ∧
    ((List.any ([] : TokensTable) fun r => r.ID == (7 : UUID)) = false) ∧
    ((UserDB.Update 9 none [] ⟨5, "A", "a@x", "h", 1, 1⟩).err =
      some (.notFound "user not found" none) ∧
    (UserDB.Delete none [] 6).err =
      some (.notFound "user not found" none) ∧
    (RefreshTokenDB.Delete none [] 7).err =
      some (.notFound "refresh token not found" none)) :=
  ⟨by decide, by decide, by decide,
   C2_missing_id_yields_notFound 9 [] ⟨5, "A", "a@x", "h", 1, 1⟩ 6 [] 7
     (by decide) (by decide) (by decide)⟩

/-- Claim C5: after a successful `UserDB.Delete` (or
`RefreshTokenDB.Delete`), a subsequent `Read` of the same ID on the
same store fails with `NotFound`. -/
theorem C5_delete_then_read_notFound (tbl : UsersTable) (id : UUID)
    (ttbl : TokensTable) (tid : UUID)
    (h1 : (UserDB.Delete none tbl id).err = none)
    (h2 : (RefreshTokenDB.Delete none ttbl tid).err = none) :
    UserDB.Read none (UserDB.Delete none tbl id).table id =
      .error (.notFound "user not found" none) ∧
    RefreshTokenDB.Read none (RefreshTokenDB.Delete none ttbl tid).table tid =
      .error (.notFound "refresh token not found" (some pgxNoRows)) := by
  have htab : (UserDB.Delete none tbl id).table =
      tbl.filter (fun r => r.ID != id) := by
    simp only [UserDB.Delete, execDeleteUsers]
    split <;> rfl
  have httab : (RefreshTokenDB.Delete none ttbl tid).table =
      ttbl.filter (fun r => r.ID != tid) := by
    simp only [RefreshTokenDB.Delete, execDeleteTokens]
    split <;> rfl
  have hfind : (tbl.filter (fun r => r.ID != id)).find?
      (fun r => r.ID == id) = none := by
    rw [List.find?_eq_none]
    intro x hx
    have := (List.mem_filter.mp hx).2
    simp only [bne_iff_ne, ne_eq] at this
    simp [this]
  have htfind : (ttbl.filter (fun r => r.ID != tid)).find?
      (fun r => r.ID == tid) = none := by
    rw [List.find?_eq_none]
    intro x hx
    have := (List.mem_filter.mp hx).2
    simp only [bne_iff_ne, ne_eq] at this
    simp [this]
  constructor
  · rw [htab]
    unfold UserDB.Read selectUserWhereId
    rw [hfind]
    rfl
  · rw [httab]
    unfold RefreshTokenDB.Read selectTokenWhereId
    rw [htfind]
    rfl

/-- Claim C5 witness: delete the only row, then read it back. -/
theorem C5_witness :
    (UserDB.Delete none [⟨5, "A", "a@x", "h", 1, 1⟩] 5).err = none ∧
    (RefreshTokenDB.Delete none [⟨7, 5, "tok", 9, 1, 1⟩] 7).err = none ∧
    (UserDB.Read none (UserDB.Delete none [⟨5, "A", "a@x", "h", 1, 1⟩] 5).table 5 =
      .error (.notFound "user not found" none) ∧
    RefreshTokenDB.Read none
        (RefreshTokenDB.Delete none [⟨7, 5, "tok", 9, 1, 1⟩] 7).table 7 =
      .error (.notFound "refresh token not found" (some pgxNoRows))) :=
  ⟨by decide, by decide,
   C5_delete_then_read_notFound [⟨5, "A", "a@x", "h", 1, 1⟩] 5
     [⟨7, 5, "tok", 9, 1, 1⟩] 7 (by decide) (by decide)⟩

/-- A successful UPDATE means: no driver fault, the table was rewritten
row-wise, and the reported count is the number of matched rows. -/
theorem execUpdateUsers_ok (fault : Option String) (tbl : UsersTable)
    (name email hash : String) (updatedAt : Time) (id : UUID)
    (tbl' : UsersTable) (n : Nat)
    (h : execUpdateUsers fault tbl name email hash updatedAt id = .ok (tbl', n)) :
    fault = none ∧
    tbl' = tbl.map (fun r => if r.ID == id then
      { r with Name := name, Email := email, PasswordHash := hash,
               UpdatedAt := updatedAt } else r) ∧
    n = tbl.countP (fun r => r.ID == id) := by
  cases fault with
  | some e => exact Except.noConfusion h
  | none =>
    simp only [execUpdateUsers] at h
    split at h
    · exact Except.noConfusion h
    · injection h with h
      exact ⟨rfl, (congrArg Prod.fst h).symm, (congrArg Prod.snd h).symm⟩

/-- A successful `UserDB.Update` rewrote exactly the matched rows. -/
theorem userUpdate_ok_table (now : Time) (fault : Option String)
    (tbl : UsersTable) (user : User)
    (hok : (UserDB.Update now fault tbl user).err = none) :
    (UserDB.Update now fault tbl user).table =
      tbl.map (fun r => if r.ID == user.ID then
        { r with Name := user.Name, Email := user.Email,
                 PasswordHash := user.PasswordHash, UpdatedAt := now }
        else r) := by
  simp only [UserDB.Update] at hok ⊢
  cases he : execUpdateUsers fault tbl user.Name user.Email user.PasswordHash
      now user.ID with
  | error e => rw [he] at hok; exact Option.noConfusion hok
  | ok p =>
    obtain ⟨tbl2, n⟩ := p
    rw [he] at hok
    obtain ⟨-, htbl, -⟩ := execUpdateUsers_ok _ _ _ _ _ _ _ _ _ he
    by_cases h0 : n = 0
    · simp [h0] at hok
    · simp only [if_neg h0]
      exact htbl

/-- Claim C3 counterexample: the claim says a successful `Update` sets
the row's `UpdatedAt` strictly later than its prior value, but
`Update` merely assigns `time.Now()`; when the clock reading equals the
prior `UpdatedAt` (here both are 5) the new value is not strictly
later. -/
theorem C3_counterexample :
    (UserDB.Update 5 none [⟨1, "Alice", "a@x", "h", 5, 5⟩]
        ⟨1, "Bob", "b@x", "h2", 0, 0⟩).err = none ∧
    ∃ r ∈ (UserDB.Update 5 none [⟨1, "Alice", "a@x", "h", 5, 5⟩]
        ⟨1, "Bob", "b@x", "h2", 0, 0⟩).table,
      r.ID = 1 ∧ ¬ (5 < r.UpdatedAt) := by decide

/-- Claim C3 (amended): for every user whose ID matches an existing
row, a successful `UserDB.Update` sets the row's `UpdatedAt` to the
update-time clock reading `now` — which is no earlier than the prior
`UpdatedAt` whenever the clock has not gone backwards, and strictly
later exactly when the clock strictly advanced (not in general) —
overwrites `Name`, `Email`, and `PasswordHash`, and leaves the row's
`CreatedAt` (and `ID`) unchanged. -/
theorem C3_update_refreshes_row (now : Time) (fault : Option String)
    (tbl : UsersTable) (user : User) (r : User)
    (hok : (UserDB.Update now fault tbl user).err = none)
    (hmem : r ∈ tbl) (hid : r.ID = user.ID) :
    ∃ r' ∈ (UserDB.Update now fault tbl user).table,
      r'.ID = r.ID ∧ r'.CreatedAt = r.CreatedAt ∧
      r'.Name = user.Name ∧ r'.Email = user.Email ∧
      r'.PasswordHash = user.PasswordHash ∧ r'.UpdatedAt = now ∧
      (r.UpdatedAt ≤ now → r.UpdatedAt ≤ r'.UpdatedAt) ∧
      (r.UpdatedAt < now → r.UpdatedAt < r'.UpdatedAt) := by
  rw [userUpdate_ok_table now fault tbl user hok]
  refine ⟨{ r with Name := user.Name, Email := user.Email,
                   PasswordHash := user.PasswordHash, UpdatedAt := now }, ?_,
          rfl, rfl, rfl, rfl, rfl, rfl, fun hle => hle, fun hlt => hlt⟩
  have : (fun s => if s.ID == user.ID then
      { s with Name := user.Name, Email := user.Email,
               PasswordHash := user.PasswordHash, UpdatedAt := now }
      else s) r =
      { r with Name := user.Name, Email := user.Email,
               PasswordHash := user.PasswordHash, UpdatedAt := now } := by
    simp [hid]
  exact this ▸ List.mem_map_of_mem _ hmem

/-- Claim C3 witness: a concrete successful update where the clock
moved from 5 to 9. -/
theorem C3_witness :
    (UserDB.Update 9 none [⟨1, "Alice", "a@x", "h", 5, 5⟩]
        ⟨1, "Bob", "b@x", "h2", 0, 0⟩).err = none ∧
    (⟨1, "Alice", "a@x", "h", 5, 5⟩ : User) ∈
      [(⟨1, "Alice", "a@x", "h", 5, 5⟩ : User)] ∧
    (⟨1, "Alice", "a@x", "h", 5, 5⟩ : User).ID =
      (⟨1, "Bob", "b@x", "h2", 0, 0⟩ : User).ID ∧
    (∃ r' ∈ (UserDB.Update 9 none [⟨1, "Alice", "a@x", "h", 5, 5⟩]
        ⟨1, "Bob", "b@x", "h2", 0, 0⟩).table,
      r'.ID = 1 ∧ r'.CreatedAt = 5 ∧
      r'.Name = "Bob" ∧ r'.Email = "b@x" ∧
      r'.PasswordHash = "h2" ∧ r'.UpdatedAt = 9 ∧
      ((5 : Nat) ≤ 9 → (5 : Nat) ≤ r'.UpdatedAt) ∧
      ((5 : Nat) < 9 → (5 : Nat) < r'.UpdatedAt)) :=
  ⟨by decide, by decide, by decide,
   C3_update_refreshes_row 9 none [⟨1, "Alice", "a@x", "h", 5, 5⟩]
     ⟨1, "Bob", "b@x", "h2", 0, 0⟩ ⟨1, "Alice", "a@x", "h", 5, 5⟩
     (by decide) (by decide) (by decide)⟩

/-- Claim C9: `UserDB.Create` and `RefreshTokenDB.Create` overwrite the
caller's `ID`, `CreatedAt`, and `UpdatedAt` in place before attempting
the insert, so the caller's record carries the newly assigned values
for every outcome — in particular the mutation is not rolled back when
the insert fails. -/
theorem C9_create_mutates_in_place (g : UuidGen) (t1 t2 : Time)
    (fault : Option String) (tbl : UsersTable) (user : User)
    (ttbl : TokensTable) (token : RefreshToken) :
    (UserDB.Create g t1 t2 fault tbl user).record =
      { user with ID := g.new.1, CreatedAt := t1, UpdatedAt := t2 } ∧
    (RefreshTokenDB.Create g t1 t2 fault ttbl token).record =
      { token with ID := g.new.1, CreatedAt := t1, UpdatedAt := t2 } := by
  constructor
  · simp only [UserDB.Create]
    split <;> rfl
  · simp only [RefreshTokenDB.Create]
    split <;> rfl

/-- Claim C10: `UserDB.Update` mutates the caller's `UpdatedAt` in
place before issuing the database call — for every outcome, including
failures, the returned record is the input with `UpdatedAt` set to the
call-time clock reading and every other field untouched. -/
theorem C10_update_mutates_in_place (now : Time) (fault : Option String)
    (tbl : UsersTable) (user : User) :
    (UserDB.Update now fault tbl user).record =
      { user with UpdatedAt := now } := by
  simp only [UserDB.Update]
  split
  · rfl
  · split <;> rfl

/-- The record and generator an insert-independent `Create` hands back. -/
theorem userCreate_record_gen (g : UuidGen) (t1 t2 : Time)
    (fault : Option String) (tbl : UsersTable) (user : User) :
    (UserDB.Create g t1 t2 fault tbl user).record =
      { user with ID := g.new.1, CreatedAt := t1, UpdatedAt := t2 } ∧
    (UserDB.Create g t1 t2 fault tbl user).gen = g.new.2 := by
  constructor
  · simp only [UserDB.Create]
    split <;> rfl
  · simp only [UserDB.Create]
    split <;> rfl

theorem tokenCreate_record_gen (g : UuidGen) (t1 t2 : Time)
    (fault : Option String) (tbl : TokensTable) (token : RefreshToken) :
    (RefreshTokenDB.Create g t1 t2 fault tbl token).record =
      { token with ID := g.new.1, CreatedAt := t1, UpdatedAt := t2 } ∧
    (RefreshTokenDB.Create g t1 t2 fault tbl token).gen = g.new.2 := by
  constructor
  · simp only [RefreshTokenDB.Create]
    split <;> rfl
  · simp only [RefreshTokenDB.Create]
    split <;> rfl

/-- Claim C4 counterexample: `Create` reads the clock once for
`CreatedAt` and again for `UpdatedAt` (two separate `time.Now()`
calls); with consecutive clock readings 0 and 1 the created record has
`CreatedAt ≠ UpdatedAt`, refuting `CreatedAt == UpdatedAt` at creation
time. -/
theorem C4_counterexample :
    (UserDB.Create ⟨0⟩ 0 1 none [] ⟨0, "Alice", "a@x", "h", 0, 0⟩).err = none ∧
    ¬ ((UserDB.Create ⟨0⟩ 0 1 none [] ⟨0, "Alice", "a@x", "h", 0, 0⟩).record.CreatedAt =
       (UserDB.Create ⟨0⟩ 0 1 none [] ⟨0, "Alice", "a@x", "h", 0, 0⟩).record.UpdatedAt) := by
  decide

/-- Claim C4 (amended): `UserDB.Create` and `RefreshTokenDB.Create`
assign a non-zero ID, distinct across successive creations, and
immediately after `Create` the record satisfies
`CreatedAt ≤ UpdatedAt` whenever the clock is non-decreasing — equality
is not guaranteed because the code reads the clock twice. -/
theorem C4_create_ids_and_timestamps (g : UuidGen) (t1 t2 t3 t4 : Time)
    (fault1 fault2 : Option String) (tbl : UsersTable) (user : User)
    (ttbl : TokensTable) (token : RefreshToken)
    (h12 : t1 ≤ t2) (h34 : t3 ≤ t4) :
    (UserDB.Create g t1 t2 fault1 tbl user).record.ID ≠ 0 ∧
    (RefreshTokenDB.Create (UserDB.Create g t1 t2 fault1 tbl user).gen t3 t4
        fault2 ttbl token).record.ID ≠ 0 ∧
    (RefreshTokenDB.Create (UserDB.Create g t1 t2 fault1 tbl user).gen t3 t4
        fault2 ttbl token).record.ID ≠
      (UserDB.Create g t1 t2 fault1 tbl user).record.ID ∧
    (UserDB.Create g t1 t2 fault1 tbl user).record.CreatedAt ≤
      (UserDB.Create g t1 t2 fault1 tbl user).record.UpdatedAt ∧
    (RefreshTokenDB.Create (UserDB.Create g t1 t2 fault1 tbl user).gen t3 t4
        fault2 ttbl token).record.CreatedAt ≤
      (RefreshTokenDB.Create (UserDB.Create g t1 t2 fault1 tbl user).gen t3 t4
        fault2 ttbl token).record.UpdatedAt := by
  obtain ⟨hr1, hg1⟩ := userCreate_record_gen g t1 t2 fault1 tbl user
  obtain ⟨hr2, -⟩ := tokenCreate_record_gen
    (UserDB.Create g t1 t2 fault1 tbl user).gen t3 t4 fault2 ttbl token
  rw [hr1, hr2, hg1]
  refine ⟨?_, ?_, ?_, h12, h34⟩ <;> simp [UuidGen.new]

/-- Claim C4 witness: two successive creations with strictly advancing
clock readings 2,3 and 4,5. -/
theorem C4_witness :
    (2 : Time) ≤ 3 ∧ (4 : Time) ≤ 5 ∧
    ((UserDB.Create ⟨0⟩ 2 3 none [] ⟨0, "A", "a@x", "h", 0, 0⟩).record.ID ≠ 0 ∧
    (RefreshTokenDB.Create (UserDB.Create ⟨0⟩ 2 3 none [] ⟨0, "A", "a@x", "h", 0, 0⟩).gen
        4 5 none [] ⟨0, 9, "tok", 99, 0, 0⟩).record.ID ≠ 0 ∧
    (RefreshTokenDB.Create (UserDB.Create ⟨0⟩ 2 3 none [] ⟨0, "A", "a@x", "h", 0, 0⟩).gen
        4 5 none [] ⟨0, 9, "tok", 99, 0, 0⟩).record.ID ≠
      (UserDB.Create ⟨0⟩ 2 3 none [] ⟨0, "A", "a@x", "h", 0, 0⟩).record.ID ∧
    (UserDB.Create ⟨0⟩ 2 3 none [] ⟨0, "A", "a@x", "h", 0, 0⟩).record.CreatedAt ≤
      (UserDB.Create ⟨0⟩ 2 3 none [] ⟨0, "A", "a@x", "h", 0, 0⟩).record.UpdatedAt ∧
    (RefreshTokenDB.Create (UserDB.Create ⟨0⟩ 2 3 none [] ⟨0, "A", "a@x", "h", 0, 0⟩).gen
        4 5 none [] ⟨0, 9, "tok", 99, 0, 0⟩).record.CreatedAt ≤
      (RefreshTokenDB.Create (UserDB.Create ⟨0⟩ 2 3 none [] ⟨0, "A", "a@x", "h", 0, 0⟩).gen
        4 5 none [] ⟨0, 9, "tok", 99, 0, 0⟩).record.UpdatedAt) :=
  ⟨by decide, by decide,
   C4_create_ids_and_timestamps ⟨0⟩ 2 3 4 5 none none []
     ⟨0, "A", "a@x", "h", 0, 0⟩ [] ⟨0, 9, "tok", 99, 0, 0⟩
     (by decide) (by decide)⟩

/-- Claim C6 counterexample: the `refresh_token` column carries no
uniqueness constraint, so creating a token whose string duplicates an
existing row succeeds, and `ReadByRefreshToken` returns the earlier
row, not the freshly created one: the two reads disagree. -/
theorem C6_counterexample :
    (RefreshTokenDB.Create ⟨1⟩ 10 10 none [⟨1, 7, "s", 100, 0, 0⟩]
        ⟨0, 8, "s", 200, 0, 0⟩).err = none ∧
    RefreshTokenDB.ReadByRefreshToken none
        (RefreshTokenDB.Create ⟨1⟩ 10 10 none [⟨1, 7, "s", 100, 0, 0⟩]
          ⟨0, 8, "s", 200, 0, 0⟩).table
        (RefreshTokenDB.Create ⟨1⟩ 10 10 none [⟨1, 7, "s", 100, 0, 0⟩]
          ⟨0, 8, "s", 200, 0, 0⟩).record.RefreshToken =
      .ok ⟨1, 7, "s", 100, 0, 0⟩ ∧
    RefreshTokenDB.Read none
        (RefreshTokenDB.Create ⟨1⟩ 10 10 none [⟨1, 7, "s", 100, 0, 0⟩]
          ⟨0, 8, "s", 200, 0, 0⟩).table
        (RefreshTokenDB.Create ⟨1⟩ 10 10 none [⟨1, 7, "s", 100, 0, 0⟩]
          ⟨0, 8, "s", 200, 0, 0⟩).record.ID =
      .ok ⟨2, 8, "s", 200, 10, 10⟩ ∧
    (⟨1, 7, "s", 100, 0, 0⟩ : RefreshToken) ≠ ⟨2, 8, "s", 200, 10, 10⟩ := by
  refine ⟨by decide, rfl, rfl, by decide⟩

/-- Claim C6 (amended): for a freshly created user row,
`UserDB.ReadByEmail` on the user's email returns the same record as
`UserDB.Read` on its ID (the email UNIQUE constraint makes the fresh
row the only match); for a freshly created token row,
`RefreshTokenDB.ReadByRefreshToken` on the token string returns the
same record as `RefreshTokenDB.Read` on its ID provided no pre-existing
row holds the same token string — the `refresh_token` column has no
uniqueness constraint, so without that proviso the lookup can return an
older row. -/
theorem C6_read_by_key_agrees (g g2 : UuidGen) (t1 t2 t3 t4 : Time)
    (fu ft : Option String) (tbl : UsersTable) (user : User)
    (ttbl : TokensTable) (token : RefreshToken)
    (hu : (UserDB.Create g t1 t2 fu tbl user).err = none)
    (ht : (RefreshTokenDB.Create g2 t3 t4 ft ttbl token).err = none)
    (hs : ttbl.any (fun r => r.RefreshToken == token.RefreshToken) = false) :
    UserDB.ReadByEmail none (UserDB.Create g t1 t2 fu tbl user).table
        (UserDB.Create g t1 t2 fu tbl user).record.Email =
      UserDB.Read none (UserDB.Create g t1 t2 fu tbl user).table
        (UserDB.Create g t1 t2 fu tbl user).record.ID ∧
    RefreshTokenDB.ReadByRefreshToken none
        (RefreshTokenDB.Create g2 t3 t4 ft ttbl token).table
        (RefreshTokenDB.Create g2 t3 t4 ft ttbl token).record.RefreshToken =
      RefreshTokenDB.Read none
        (RefreshTokenDB.Create g2 t3 t4 ft ttbl token).table
        (RefreshTokenDB.Create g2 t3 t4 ft ttbl token).record.ID := by
  obtain ⟨hrec, htab, hid, hem⟩ := userCreate_ok g t1 t2 fu tbl user hu
  obtain ⟨htrec, httab, htid⟩ := tokenCreate_ok g2 t3 t4 ft ttbl token ht
  constructor
  · rw [hrec, htab]
    unfold UserDB.ReadByEmail UserDB.Read selectUserWhereEmail selectUserWhereId
    rw [find?_appended_row _ _ _ hem (by simp),
        find?_appended_row _ _ _ hid (by simp)]
    rfl
  · rw [htrec, httab]
    unfold RefreshTokenDB.ReadByRefreshToken RefreshTokenDB.Read
      selectTokenWhereToken selectTokenWhereId
    rw [find?_appended_row _ _ _ hs (by simp),
        find?_appended_row _ _ _ htid (by simp)]

/-- Claim C6 witness: fresh rows in otherwise empty tables. -/
theorem C6_witness :
    (UserDB.Create ⟨0⟩ 1 1 none [] ⟨0, "A", "a@x", "h", 0, 0⟩).err = none ∧
    (RefreshTokenDB.Create ⟨0⟩ 1 1 none [] ⟨0, 9, "tok", 99, 0, 0⟩).err = none ∧
    (List.any ([] : TokensTable) fun r => r.RefreshToken == "tok") = false ∧
    (UserDB.ReadByEmail none (UserDB.Create ⟨0⟩ 1 1 none [] ⟨0, "A", "a@x", "h", 0, 0⟩).table
        (UserDB.Create ⟨0⟩ 1 1 none [] ⟨0, "A", "a@x", "h", 0, 0⟩).record.Email =
      UserDB.Read none (UserDB.Create ⟨0⟩ 1 1 none [] ⟨0, "A", "a@x", "h", 0, 0⟩).table
        (UserDB.Create ⟨0⟩ 1 1 none [] ⟨0, "A", "a@x", "h", 0, 0⟩).record.ID ∧
    RefreshTokenDB.ReadByRefreshToken none
        (RefreshTokenDB.Create ⟨0⟩ 1 1 none [] ⟨0, 9, "tok", 99, 0, 0⟩).table
        (RefreshTokenDB.Create ⟨0⟩ 1 1 none [] ⟨0, 9, "tok", 99, 0, 0⟩).record.RefreshToken =
      RefreshTokenDB.Read none
        (RefreshTokenDB.Create ⟨0⟩ 1 1 none [] ⟨0, 9, "tok", 99, 0, 0⟩).table
        (RefreshTokenDB.Create ⟨0⟩ 1 1 none [] ⟨0, 9, "tok", 99, 0, 0⟩).record.ID) :=
  ⟨by decide, by decide, by decide,
   C6_read_by_key_agrees ⟨0⟩ ⟨0⟩ 1 1 1 1 none none [] ⟨0, "A", "a@x", "h", 0, 0⟩
     [] ⟨0, 9, "tok", 99, 0, 0⟩ (by decide) (by decide) (by decide)⟩

/-- Claim C7: every targeted read (`UserDB.Read`, `UserDB.ReadByEmail`,
`RefreshTokenDB.Read`, `RefreshTokenDB.ReadByRefreshToken`) fails with
`NotFound` exactly when zero rows match its query, and on every other
database-layer failure fails with a `PersistenceError` wrapping the
underlying cause — no failure is swallowed or retried. -/
theorem C7_read_error_classification (tbl : UsersTable) (ttbl : TokensTable)
    (id tid : UUID) (email s : String) :
    (∀ e, UserDB.Read (some e) tbl id =
        .error (.persistence "failed to read user" e)) ∧
    (UserDB.Read none tbl id = .error (.notFound "user not found" none) ↔
        ∀ r ∈ tbl, ¬ r.ID = id) ∧
    (∀ e, UserDB.ReadByEmail (some e) tbl email =
        .error (.persistence "failed to read user" e)) ∧
    (UserDB.ReadByEmail none tbl email =
        .error (.notFound "user not found" (some pgxNoRows)) ↔
        ∀ r ∈ tbl, ¬ r.Email = email) ∧
    (∀ e, RefreshTokenDB.Read (some e) ttbl tid =
        .error (.persistence "failed to read refresh token" e)) ∧
    (RefreshTokenDB.Read none ttbl tid =
        .error (.notFound "refresh token not found" (some pgxNoRows)) ↔
        ∀ r ∈ ttbl, ¬ r.ID = tid) ∧
    (∀ e, RefreshTokenDB.ReadByRefreshToken (some e) ttbl s =
        .error (.persistence "failed to read refresh token" e)) ∧
    (RefreshTokenDB.ReadByRefreshToken none ttbl s =
        .error (.notFound "refresh token not found" (some pgxNoRows)) ↔
        ∀ r ∈ ttbl, ¬ r.RefreshToken = s) := by
  refine ⟨fun e => rfl, ?_, fun e => rfl, ?_, fun e => rfl, ?_, fun e => rfl, ?_⟩
  · cases hf : tbl.find? (fun r => r.ID == id) with
    | some u =>
      have hm := List.mem_of_find?_eq_some hf
      have hp := List.find?_some hf
      simp only [beq_iff_eq] at hp
      refine iff_of_false (fun hcontra => ?_) (fun hall => hall u hm hp)
      unfold UserDB.Read selectUserWhereId at hcontra
      rw [hf] at hcontra
      exact Except.noConfusion hcontra
    | none =>
      refine iff_of_true ?_ ?_
      · unfold UserDB.Read selectUserWhereId
        rw [hf]
        rfl
      · intro r hr hv
        exact List.find?_eq_none.mp hf r hr (by simp [hv])
  · cases hf : tbl.find? (fun r => r.Email == email) with
    | some u =>
      have hm := List.mem_of_find?_eq_some hf
      have hp := List.find?_some hf
      simp only [beq_iff_eq] at hp
      refine iff_of_false (fun hcontra => ?_) (fun hall => hall u hm hp)
      unfold UserDB.ReadByEmail selectUserWhereEmail at hcontra
      rw [hf] at hcontra
      exact Except.noConfusion hcontra
    | none =>
      refine iff_of_true ?_ ?_
      · unfold UserDB.ReadByEmail selectUserWhereEmail
        rw [hf]
        rfl
      · intro r hr hv
        exact List.find?_eq_none.mp hf r hr (by simp [hv])
  · cases hf : ttbl.find? (fun r => r.ID == tid) with
    | some u =>
      have hm := List.mem_of_find?_eq_some hf
      have hp := List.find?_some hf
      simp only [beq_iff_eq] at hp
      refine iff_of_false (fun hcontra => ?_) (fun hall => hall u hm hp)
      unfold RefreshTokenDB.Read selectTokenWhereId at hcontra
      rw [hf] at hcontra
      exact Except.noConfusion hcontra
    | none =>
      refine iff_of_true ?_ ?_
      · unfold RefreshTokenDB.Read selectTokenWhereId
        rw [hf]
        rfl
      · intro r hr hv
        exact List.find?_eq_none.mp hf r hr (by simp [hv])
  · cases hf : ttbl.find? (fun r => r.RefreshToken == s) with
    | some u =>
      have hm := List.mem_of_find?_eq_some hf
      have hp := List.find?_some hf
      simp only [beq_iff_eq] at hp
      refine iff_of_false (fun hcontra => ?_) (fun hall => hall u hm hp)
      unfold RefreshTokenDB.ReadByRefreshToken selectTokenWhereToken at hcontra
      rw [hf] at hcontra
      exact Except.noConfusion hcontra
    | none =>
      refine iff_of_true ?_ ?_
      · unfold RefreshTokenDB.ReadByRefreshToken selectTokenWhereToken
        rw [hf]
        rfl
      · intro r hr hv
        exact List.find?_eq_none.mp hf r hr (by simp [hv])

/-- Claim C8: `TokenCache.Set` stores the token's `RefreshToken` string
under the key obtained by rendering `token.ID` as text, with a TTL
equal to `token.ExpiresAt` minus the current instant (possibly
negative), and returns an error exactly when the underlying cache
command fails — the failure's cause surfacing unchanged, the cache
untouched. -/
theorem C8_tokenCache_set (now : Time) (c : CacheState)
    (token : RefreshToken) :
    ((TokenCache.Set now none c token).err = none ∧
     cacheLookup (TokenCache.Set now none c token).cache
         (uuidString token.ID) =
       some (token.RefreshToken, (token.ExpiresAt : Int) - (now : Int))) ∧
    (∀ e, (TokenCache.Set now (some e) c token).err = some e ∧
       (TokenCache.Set now (some e) c token).cache = c) := by
  refine ⟨⟨rfl, ?_⟩, fun e => ⟨rfl, rfl⟩⟩
  have hl : ((c.filter (fun en => en.key != uuidString token.ID)).any
      (fun en => en.key == uuidString token.ID)) = false := by
    rw [List.any_eq_false]
    intro x hx
    have hne := (List.mem_filter.mp hx).2
    simp only [bne_iff_ne, ne_eq] at hne
    simp [hne]
  unfold TokenCache.Set redisSet cacheLookup
  rw [find?_appended_row _ _ _ hl (by simp)]
  rfl
